import Mathlib

/-
  Formal model of the roster valuation and trade recommendation engine of the
  sleeper-dashboard repository.

  The definitions below are shallow embeddings of the JavaScript functions in
  src/data/power-rankings.json.js and src/data/generate-trade-recommendations.js.
  JavaScript numbers are modelled as rationals; Math.round is half-up rounding;
  the JS pattern (x || d) on a numeric field is modelled explicitly, since 0 is
  falsy in JavaScript.  Array.prototype.sort with a numeric comparator is a
  stable sort and is modelled by List.insertionSort on the corresponding total
  preorder, which is stable and therefore produces the same list.
-/

namespace Sleeper

/-- The fantasy positions handled by the engine. -/
inductive Pos where
  | QB
  | RB
  | WR
  | TE
  | K
  | DEF
deriving DecidableEq, Repr

/-- Starting-slot counts per slot class, as produced by getStartingSlots in
power-rankings.json.js. -/
structure Slots where
  QB : Nat
  RB : Nat
  WR : Nat
  TE : Nat
  FLEX : Nat
  SUPER_FLEX : Nat
  K : Nat
  DEF : Nat
deriving DecidableEq, Repr

/-- Slot count of a dedicated (non-flex) position. -/
def Slots.atPos (s : Slots) : Pos → Nat
  | .QB => s.QB
  | .RB => s.RB
  | .WR => s.WR
  | .TE => s.TE
  | .K => s.K
  | .DEF => s.DEF

/-- JavaScript Math.round: half-up rounding. -/
def jsRound (q : ℚ) : ℤ := ⌊q + 1/2⌋

/-- The idiom Math.round(x * 10) / 10 used by the engine to report one-decimal
numbers. -/
def roundTo1 (q : ℚ) : ℚ := (jsRound (q * 10) : ℚ) / 10

/-- JavaScript (x || d) on an optional numeric field: a missing value and the
number 0 are both falsy and fall through to the default. -/
def jsOrQ (x : Option ℚ) (d : ℚ) : ℚ :=
  match x with
  | none => d
  | some v => if v = 0 then d else v

/-- JavaScript (x || d) on an optional natural-number field. -/
def jsOrN (x : Option Nat) (d : Nat) : Nat :=
  match x with
  | none => d
  | some v => if v = 0 then d else v

/-- JavaScript (v || d) on a rational that is already present: 0 is falsy. -/
def jsFalsyQ (v d : ℚ) : ℚ := if v = 0 then d else v

/-- Default trade fairness tolerance VALUE_TOLERANCE_PERCENT from
generate-trade-recommendations.js. -/
def VALUE_TOLERANCE_PERCENT : ℚ := 30/100

/-- The isFairTrade check of generate-trade-recommendations.js (both the CLI
copy at lines 246-256 and the data-loader copy at lines 1159-1164 have the
same body): a trade of two all-zero sides is unfair, otherwise the relative
gap between the two side values must not exceed the tolerance. -/
def isFairTrade (v1 v2 : ℚ) (tolerance : ℚ := VALUE_TOLERANCE_PERCENT) : Bool :=
  if v1 = 0 ∧ v2 = 0 then false
  else decide ((max v1 v2 - min v1 v2) / max v1 v2 ≤ tolerance)

/-- Claim C8: for all values a and b and every tolerance t,
isFairTrade(a, b, t) == isFairTrade(b, a, t). -/
theorem isFairTrade_symmetric (a b t : ℚ) : isFairTrade a b t = isFairTrade b a t := by
  by_cases h : a = 0 ∧ b = 0
  · have h2 : b = 0 ∧ a = 0 := ⟨h.2, h.1⟩
    simp [isFairTrade, h, h2]
  · have h2 : ¬(b = 0 ∧ a = 0) := fun hc => h ⟨hc.2, hc.1⟩
    simp only [isFairTrade, if_neg h, if_neg h2]
    rw [max_comm b a, min_comm b a]

/-- Claim C9: for every tolerance t, isFairTrade(0, 0, t) returns false via the
explicit guard, rather than evaluating the division 0 / 0: a trade whose two
sides both have total value 0 is never classified as fair. -/
theorem isFairTrade_zero_zero (t : ℚ) : isFairTrade 0 0 t = false := by
  simp [isFairTrade]

/-- One row of the FantasyCalc market feed as read by calculateDynamicScarcity:
the position of the nested player record, the position rank, and the two value
fields consulted by the VOR computation.  Each field may be absent. -/
structure FCPlayer where
  pos : Option Pos
  positionRank : Option Nat
  redraftValue : Option ℚ
  value : Option ℚ
deriving DecidableEq, Repr

/-- Static fallback scarcity multipliers STATIC_SCARCITY_FALLBACK for 1-QB
leagues (power-rankings.json.js lines 14-21). -/
def STATIC_SCARCITY_FALLBACK : Pos → ℚ
  | .QB => 80
  | .RB => 150
  | .WR => 100
  | .TE => 120
  | .K => 20
  | .DEF => 25

/-- Superflex fallback scarcity multipliers SF_SCARCITY_FALLBACK
(power-rankings.json.js lines 23-30). -/
def SF_SCARCITY_FALLBACK : Pos → ℚ
  | .QB => 140
  | .RB => 150
  | .WR => 100
  | .TE => 120
  | .K => 20
  | .DEF => 25

/-- The per-position player pool used by calculateDynamicScarcity: filter the
feed to one position, then sort ascending by position rank with missing or
zero ranks treated as 999. -/
def scarcityPosPlayers (data : List FCPlayer) (p : Pos) : List FCPlayer :=
  List.insertionSort (fun a b => jsOrN a.positionRank 999 ≤ jsOrN b.positionRank 999)
    (data.filter (fun r => r.pos == some p))

/-- Flex eligibility test used throughout the engine: RB, WR and TE can fill a
FLEX slot. -/
def isFlexEligible (p : Pos) : Bool := p == .RB || p == .WR || p == .TE

/-- League-wide starter demand for one position in calculateDynamicScarcity:
dedicated slots times team count, plus an estimated 33 percent share of FLEX
slots for flex-eligible positions, plus superflex shares (40 percent for QB,
20 percent for other flex-eligible positions) in superflex leagues. -/
def startersNeeded (slots : Slots) (numTeams : Nat) (isSF : Bool) (p : Pos) : Nat :=
  slots.atPos p * numTeams
    + (if isFlexEligible p then (⌊((slots.FLEX * numTeams : Nat) : ℚ) * (33/100)⌋).toNat else 0)
    + (if p == Pos.QB && isSF then (⌊((slots.SUPER_FLEX * numTeams : Nat) : ℚ) * (4/10)⌋).toNat else 0)
    + (if isFlexEligible p && isSF then (⌊((slots.SUPER_FLEX * numTeams : Nat) : ℚ) * (2/10)⌋).toNat else 0)

/-- The raw VOR multiplier of one position before normalization: with no feed
rows for the position, the static fallback value (superflex table for QB in a
superflex league); otherwise max(0, eliteValue - replacementValue), where the
elite player is the first of the rank-sorted pool and the replacement player
sits at index min(startersNeeded, poolSize - 1).  The value fields use the JS
fallback chain (redraftValue || value || default) with default 0 for the elite
player and 100 for the replacement player. -/
def vorMultiplier (data : List FCPlayer) (slots : Slots) (numTeams : Nat) (isSF : Bool)
    (p : Pos) : ℚ :=
  match scarcityPosPlayers data p with
  | [] => if isSF && p == Pos.QB then SF_SCARCITY_FALLBACK p else STATIC_SCARCITY_FALLBACK p
  | elite :: rest =>
    let posPlayers := elite :: rest
    let replacementIndex := min (startersNeeded slots numTeams isSF p) (posPlayers.length - 1)
    let replacement := posPlayers.getD replacementIndex elite
    let eliteValue := jsOrQ elite.redraftValue (jsOrQ elite.value 0)
    let replacementValue := jsOrQ replacement.redraftValue (jsOrQ replacement.value 100)
    max 0 (eliteValue - replacementValue)

/-- calculateDynamicScarcity (power-rankings.json.js lines 247-332), as the map
from positions to normalized multipliers.  An empty feed returns the fallback
table unchanged; otherwise every position is normalized against the WR VOR
(with the JS guard wrVor = vorMultipliers[WR] || 1), rounded, and clamped to
the range [20, 200]. -/
def calculateDynamicScarcity (data : List FCPlayer) (slots : Slots) (numTeams : Nat)
    (isSF : Bool) (p : Pos) : ℚ :=
  if data = [] then
    (if isSF then SF_SCARCITY_FALLBACK p else STATIC_SCARCITY_FALLBACK p)
  else
    ((max 20 (min 200 (jsRound (vorMultiplier data slots numTeams isSF p /
        jsFalsyQ (vorMultiplier data slots numTeams isSF Pos.WR) 1 * 100))) : ℤ) : ℚ)

/-- The raw VOR multiplier is never negative. -/
theorem vorMultiplier_nonneg (data : List FCPlayer) (slots : Slots) (numTeams : Nat)
    (isSF : Bool) (p : Pos) : 0 ≤ vorMultiplier data slots numTeams isSF p := by
  unfold vorMultiplier
  split
  · split <;> (cases p <;> simp_all [SF_SCARCITY_FALLBACK, STATIC_SCARCITY_FALLBACK])
  · exact le_max_left 0 _

/-- With no feed rows at a position, the raw multiplier is the fallback table
value. -/
theorem vorMultiplier_of_empty (data : List FCPlayer) (slots : Slots) (numTeams : Nat)
    (isSF : Bool) (p : Pos) (h : scarcityPosPlayers data p = []) :
    vorMultiplier data slots numTeams isSF p =
      if isSF && p == Pos.QB then SF_SCARCITY_FALLBACK p else STATIC_SCARCITY_FALLBACK p := by
  unfold vorMultiplier
  rw [h]

/-- Claim C2, amended: for every non-empty ranked market feed, every position
multiplier produced by calculateDynamicScarcity lies in [20, 200]; the WR
multiplier is 100 whenever the WR VOR is nonzero (or the feed has no WR rows,
in which case the WR fallback 100 is used), but in the degenerate case of WR
rows with VOR equal to 0 the WR multiplier is 20, not 100. -/
theorem scarcity_bounds_wr (data : List FCPlayer) (slots : Slots) (numTeams : Nat)
    (isSF : Bool) (hne : data ≠ []) :
    (∀ p, 20 ≤ calculateDynamicScarcity data slots numTeams isSF p ∧
          calculateDynamicScarcity data slots numTeams isSF p ≤ 200) ∧
    calculateDynamicScarcity data slots numTeams isSF Pos.WR =
      (if scarcityPosPlayers data Pos.WR ≠ [] ∧
          vorMultiplier data slots numTeams isSF Pos.WR = 0
       then 20 else 100) := by
  constructor
  · intro p
    unfold calculateDynamicScarcity
    rw [if_neg hne]
    constructor
    · have h20 : (20 : ℤ) ≤ max 20 (min 200 (jsRound
          (vorMultiplier data slots numTeams isSF p /
            jsFalsyQ (vorMultiplier data slots numTeams isSF Pos.WR) 1 * 100))) :=
        le_max_left _ _
      exact_mod_cast h20
    · have h200 : max 20 (min 200 (jsRound
          (vorMultiplier data slots numTeams isSF p /
            jsFalsyQ (vorMultiplier data slots numTeams isSF Pos.WR) 1 * 100))) ≤ (200 : ℤ) :=
        max_le (by norm_num) (min_le_left _ _)
      exact_mod_cast h200
  · unfold calculateDynamicScarcity
    rw [if_neg hne]
    by_cases hpp : scarcityPosPlayers data Pos.WR = []
    · have hv : vorMultiplier data slots numTeams isSF Pos.WR = 100 := by
        rw [vorMultiplier_of_empty data slots numTeams isSF Pos.WR hpp]
        simp [SF_SCARCITY_FALLBACK, STATIC_SCARCITY_FALLBACK]
      rw [if_neg (by simp [hpp]), hv]
      norm_num [jsFalsyQ, jsRound]
    · by_cases hv0 : vorMultiplier data slots numTeams isSF Pos.WR = 0
      · rw [if_pos ⟨hpp, hv0⟩, hv0]
        norm_num [jsFalsyQ, jsRound]
      · rw [if_neg (by intro hc; exact hv0 hc.2)]
        have hdiv : vorMultiplier data slots numTeams isSF Pos.WR /
            jsFalsyQ (vorMultiplier data slots numTeams isSF Pos.WR) 1 * 100 = 100 := by
          rw [jsFalsyQ, if_neg hv0, div_self hv0, one_mul]
        rw [hdiv]
        norm_num [jsRound]

/-- A one-row market feed whose single WR row makes the WR elite and
replacement player coincide, so the WR VOR is 0. -/
def c2Feed : List FCPlayer :=
  [{ pos := some Pos.WR, positionRank := some 1, redraftValue := some 500, value := none }]

/-- A standard 12-team 1-QB slot configuration. -/
def c2Slots : Slots :=
  { QB := 1, RB := 2, WR := 2, TE := 1, FLEX := 1, SUPER_FLEX := 0, K := 1, DEF := 1 }

unseal Rat.mul Rat.add Rat.sub Rat.inv in
/-- Claim C2, counterexample: on a non-empty feed whose WR VOR is 0, the
scarcity map gives WR the value 20, not the claimed 100. -/
theorem scarcity_wr_counterexample :
    calculateDynamicScarcity c2Feed c2Slots 12 false Pos.WR = 20 ∧
    calculateDynamicScarcity c2Feed c2Slots 12 false Pos.WR ≠ 100 := by
  constructor
  · decide
  · decide

/-- A one-row market feed with a single QB row, used to instantiate the
amended scarcity theorem at a concrete non-empty input. -/
def c2WitnessFeed : List FCPlayer :=
  [{ pos := some Pos.QB, positionRank := some 1, redraftValue := some 9000, value := none }]

unseal Rat.mul Rat.add Rat.sub Rat.inv in
/-- Witness for the amended claim C2 theorem at a concrete non-empty feed. -/
theorem scarcity_bounds_wr_witness :
    c2WitnessFeed ≠ [] ∧
    ((∀ p, 20 ≤ calculateDynamicScarcity c2WitnessFeed c2Slots 12 false p ∧
           calculateDynamicScarcity c2WitnessFeed c2Slots 12 false p ≤ 200) ∧
     calculateDynamicScarcity c2WitnessFeed c2Slots 12 false Pos.WR =
       (if scarcityPosPlayers c2WitnessFeed Pos.WR ≠ [] ∧
           vorMultiplier c2WitnessFeed c2Slots 12 false Pos.WR = 0
        then 20 else 100)) :=
  ⟨by decide, scarcity_bounds_wr c2WitnessFeed c2Slots 12 false (by decide)⟩

/-- A roster player entry as built at the top of calculateOptimalLineupValue
(power-rankings.json.js lines 631-699) and calculateOptimalLineup
(generate-trade-recommendations.js lines 1009-1061): player identifier plus
resolved value (missing values default to 0).  The display name is omitted as
it never influences the computation. -/
structure RPlayer where
  pid : Nat
  value : ℚ
deriving DecidableEq, Repr

/-- Grouping step of the lineup optimizer: the roster players whose directory
position is p, in roster order, with resolved values.  Players missing from
the player directory are skipped, as in the source. -/
def rosterAtPosition (rosterPlayerIds : List Nat) (playerValues : Nat → Option ℚ)
    (players : Nat → Option Pos) (p : Pos) : List RPlayer :=
  rosterPlayerIds.filterMap (fun pid =>
    match players pid with
    | none => none
    | some q => if q = p then some ⟨pid, (playerValues pid).getD 0⟩ else none)

/-- The per-position pool of the lineup optimizer, sorted by value descending
(stable, as Array.prototype.sort). -/
def byPosition (rosterPlayerIds : List Nat) (playerValues : Nat → Option ℚ)
    (players : Nat → Option Pos) (p : Pos) : List RPlayer :=
  List.insertionSort (fun a b => b.value ≤ a.value)
    (rosterAtPosition rosterPlayerIds playerValues players p)

/-- The slot class a starter is assigned to. -/
inductive SlotTag where
  | pos (p : Pos)
  | FLEX
  | SUPER_FLEX
deriving DecidableEq, Repr

/-- One assigned starter of the optimal lineup. -/
structure Starter where
  pid : Nat
  value : ℚ
  slot : SlotTag
deriving DecidableEq, Repr

/-- The fixed pass order of the required-slot loop in the lineup optimizer. -/
def posOrder : List Pos := [.QB, .RB, .WR, .TE, .K, .DEF]

/-- Pass 1 of the lineup optimizer: fill the dedicated slots of each position
from that position pool in descending-value order. -/
def requiredStarters (rosterPlayerIds : List Nat) (playerValues : Nat → Option ℚ)
    (players : Nat → Option Pos) (slots : Slots) : List Starter :=
  posOrder.flatMap (fun p =>
    ((byPosition rosterPlayerIds playerValues players p).take (slots.atPos p)).map
      (fun x => ⟨x.pid, x.value, .pos p⟩))

/-- Pass 2 pool: unused RB, WR and TE players, sorted by value descending. -/
def flexEligible (rosterPlayerIds : List Nat) (playerValues : Nat → Option ℚ)
    (players : Nat → Option Pos) (used : List Nat) : List RPlayer :=
  List.insertionSort (fun a b => b.value ≤ a.value)
    ((byPosition rosterPlayerIds playerValues players .RB ++
      byPosition rosterPlayerIds playerValues players .WR ++
      byPosition rosterPlayerIds playerValues players .TE).filter
        (fun x => !(used.contains x.pid)))

/-- Pass 3 pool: unused QB, RB, WR and TE players, sorted by value descending. -/
def superFlexEligible (rosterPlayerIds : List Nat) (playerValues : Nat → Option ℚ)
    (players : Nat → Option Pos) (used : List Nat) : List RPlayer :=
  List.insertionSort (fun a b => b.value ≤ a.value)
    ((byPosition rosterPlayerIds playerValues players .QB ++
      byPosition rosterPlayerIds playerValues players .RB ++
      byPosition rosterPlayerIds playerValues players .WR ++
      byPosition rosterPlayerIds playerValues players .TE).filter
        (fun x => !(used.contains x.pid)))

/-- The used set after pass 1: identifiers of the required starters. -/
def usedAfterRequired (rosterPlayerIds : List Nat) (playerValues : Nat → Option ℚ)
    (players : Nat → Option Pos) (slots : Slots) : List Nat :=
  (requiredStarters rosterPlayerIds playerValues players slots).map (fun s => s.pid)

/-- Pass 2 of the lineup optimizer: fill the FLEX slots from the unused
flex-eligible players in descending-value order. -/
def flexStarters (rosterPlayerIds : List Nat) (playerValues : Nat → Option ℚ)
    (players : Nat → Option Pos) (slots : Slots) : List Starter :=
  ((flexEligible rosterPlayerIds playerValues players
      (usedAfterRequired rosterPlayerIds playerValues players slots)).take slots.FLEX).map
    (fun x => ⟨x.pid, x.value, SlotTag.FLEX⟩)

/-- The used set after pass 2. -/
def usedAfterFlex (rosterPlayerIds : List Nat) (playerValues : Nat → Option ℚ)
    (players : Nat → Option Pos) (slots : Slots) : List Nat :=
  usedAfterRequired rosterPlayerIds playerValues players slots ++
    (flexStarters rosterPlayerIds playerValues players slots).map (fun s => s.pid)

/-- Pass 3 of the lineup optimizer: fill the SUPER_FLEX slots from the unused
superflex-eligible players in descending-value order. -/
def superFlexStarters (rosterPlayerIds : List Nat) (playerValues : Nat → Option ℚ)
    (players : Nat → Option Pos) (slots : Slots) : List Starter :=
  ((superFlexEligible rosterPlayerIds playerValues players
      (usedAfterFlex rosterPlayerIds playerValues players slots)).take slots.SUPER_FLEX).map
    (fun x => ⟨x.pid, x.value, SlotTag.SUPER_FLEX⟩)

/-- The starters list assembled by the lineup optimizer: required slots first,
then FLEX, then SUPER_FLEX, each pass skipping players already used. -/
def lineupStarters (rosterPlayerIds : List Nat) (playerValues : Nat → Option ℚ)
    (players : Nat → Option Pos) (slots : Slots) : List Starter :=
  requiredStarters rosterPlayerIds playerValues players slots ++
    flexStarters rosterPlayerIds playerValues players slots ++
    superFlexStarters rosterPlayerIds playerValues players slots

/-- calculateOptimalLineupValue: the accumulated total value together with the
starters list.  The total is exactly the sum of the assigned starter values. -/
def calculateOptimalLineupValue (rosterPlayerIds : List Nat) (playerValues : Nat → Option ℚ)
    (players : Nat → Option Pos) (slots : Slots) : ℚ × List Starter :=
  (((lineupStarters rosterPlayerIds playerValues players slots).map (fun s => s.value)).sum,
   lineupStarters rosterPlayerIds playerValues players slots)

/-- Player directory for the concrete 1-QB scenario of the spec: one QB, two
RBs, three WRs, one TE. -/
def c4Players : Nat → Option Pos := fun pid =>
  [(1, Pos.QB), (2, Pos.RB), (3, Pos.RB), (4, Pos.WR), (5, Pos.WR), (6, Pos.WR),
   (7, Pos.TE)].lookup pid

/-- Resolved values for the concrete scenario. -/
def c4Values : Nat → Option ℚ := fun pid =>
  [(1, (3000 : ℚ)), (2, 5000), (3, 1200), (4, 4000), (5, 2000), (6, 800),
   (7, 1000)].lookup pid

/-- Slot configuration QB 1, RB 2, WR 2, TE 1, FLEX 1, K 1, DEF 1 of the
concrete scenario. -/
def c4Slots : Slots :=
  { QB := 1, RB := 2, WR := 2, TE := 1, FLEX := 1, SUPER_FLEX := 0, K := 1, DEF := 1 }

unseal Rat.mul Rat.add Rat.sub Rat.inv in
/-- Claim C4: on the 12-team 1-QB scenario with slots QB 1, RB 2, WR 2, TE 1,
FLEX 1, K 1, DEF 1 and the roster of values QB 3000, RB 5000 and 1200,
WR 4000, 2000 and 800, TE 1000, the optimizer starts QB(3000), RB(5000),
RB(1200), WR(4000), WR(2000), TE(1000) and puts the 800-value WR in the FLEX
slot, for a total lineup value of exactly 17000. -/
theorem lineup_concrete_scenario :
    calculateOptimalLineupValue [1, 2, 3, 4, 5, 6, 7] c4Values c4Players c4Slots =
      (17000,
       [⟨1, 3000, .pos .QB⟩, ⟨2, 5000, .pos .RB⟩, ⟨3, 1200, .pos .RB⟩,
        ⟨4, 4000, .pos .WR⟩, ⟨5, 2000, .pos .WR⟩, ⟨7, 1000, .pos .TE⟩,
        ⟨6, 800, .FLEX⟩]) := by
  decide

/-- Every entry of the per-position grouping is a roster member whose directory
position is the grouped position. -/
theorem mem_rosterAtPosition {roster : List Nat} {pv : Nat → Option ℚ}
    {ps : Nat → Option Pos} {p : Pos} {x : RPlayer}
    (hx : x ∈ rosterAtPosition roster pv ps p) :
    x.pid ∈ roster ∧ ps x.pid = some p := by
  rw [rosterAtPosition, List.mem_filterMap] at hx
  obtain ⟨pid, hpid, hfx⟩ := hx
  rcases hps : ps pid with _ | q
  · rw [hps] at hfx
    exact absurd hfx (by simp)
  · rw [hps] at hfx
    dsimp only at hfx
    split_ifs at hfx with hq
    injection hfx with h
    subst h
    exact ⟨hpid, by rw [hps, hq]⟩

/-- The identifier projection of the per-position grouping is a sublist of the
roster id list. -/
theorem map_pid_rosterAtPosition_sublist (roster : List Nat) (pv : Nat → Option ℚ)
    (ps : Nat → Option Pos) (p : Pos) :
    ((rosterAtPosition roster pv ps p).map (fun x => x.pid)).Sublist roster := by
  induction roster with
  | nil => simp [rosterAtPosition]
  | cons hd tl ih =>
    rw [rosterAtPosition, List.filterMap_cons]
    rw [rosterAtPosition] at ih
    rcases hps : ps hd with _ | q
    · simp only [hps]
      exact ih.cons hd
    · simp only [hps]
      by_cases hq : q = p
      · simp only [if_pos hq, List.map_cons]
        exact ih.cons₂ hd
      · simp only [if_neg hq]
        exact ih.cons hd

/-- Membership transfers from the sorted pool to the grouping facts. -/
theorem mem_byPosition {roster : List Nat} {pv : Nat → Option ℚ}
    {ps : Nat → Option Pos} {p : Pos} {x : RPlayer}
    (hx : x ∈ byPosition roster pv ps p) :
    x.pid ∈ roster ∧ ps x.pid = some p :=
  mem_rosterAtPosition ((List.perm_insertionSort _ _).mem_iff.mp hx)

/-- On a duplicate-free roster, the sorted per-position pool has pairwise
distinct identifiers. -/
theorem nodup_pid_byPosition (roster : List Nat) (pv : Nat → Option ℚ)
    (ps : Nat → Option Pos) (p : Pos) (hnd : roster.Nodup) :
    ((byPosition roster pv ps p).map (fun x => x.pid)).Nodup := by
  have hperm := (List.perm_insertionSort (fun a b : RPlayer => b.value ≤ a.value)
    (rosterAtPosition roster pv ps p)).map (fun x => x.pid)
  rw [byPosition, hperm.nodup_iff]
  exact List.Nodup.sublist (map_pid_rosterAtPosition_sublist roster pv ps p) hnd

/-- A player identifier cannot occur in the pools of two different positions,
since the player directory assigns a single position per identifier. -/
theorem pid_injective_byPosition {roster : List Nat} {pv : Nat → Option ℚ}
    {ps : Nat → Option Pos} {p q : Pos} {x y : RPlayer}
    (hx : x ∈ byPosition roster pv ps p) (hy : y ∈ byPosition roster pv ps q)
    (hpq : p ≠ q) : x.pid ≠ y.pid := by
  intro he
  have h1 := (mem_byPosition hx).2
  have h2 := (mem_byPosition hy).2
  rw [he, h2] at h1
  exact hpq (Option.some.inj h1).symm

/-- Identifier lists of pools at different positions are disjoint. -/
theorem disjoint_pid_byPosition (roster : List Nat) (pv : Nat → Option ℚ)
    (ps : Nat → Option Pos) {p q : Pos} (hpq : p ≠ q) :
    List.Disjoint ((byPosition roster pv ps p).map (fun x => x.pid))
      ((byPosition roster pv ps q).map (fun x => x.pid)) := by
  intro z hz1 hz2
  obtain ⟨x, hx, hxz⟩ := List.mem_map.mp hz1
  obtain ⟨y, hy, hyz⟩ := List.mem_map.mp hz2
  exact pid_injective_byPosition hx hy hpq (hxz.trans hyz.symm)

/-- Tagging a pool entry with a slot does not change its identifier. -/
theorem map_pid_map_tag (l : List RPlayer) (t : SlotTag) :
    ((l.map (fun x => (⟨x.pid, x.value, t⟩ : Starter))).map (fun s => s.pid)) =
      l.map (fun x => x.pid) := by
  rw [List.map_map]
  rfl

/-- Pass 1 never repeats an identifier on a duplicate-free roster. -/
theorem nodup_pid_requiredStarters (roster : List Nat) (pv : Nat → Option ℚ)
    (ps : Nat → Option Pos) (slots : Slots) (hnd : roster.Nodup) :
    ((requiredStarters roster pv ps slots).map (fun s => s.pid)).Nodup := by
  rw [requiredStarters, List.map_flatMap]
  simp only [map_pid_map_tag]
  rw [List.nodup_flatMap]
  constructor
  · intro p _
    refine List.Nodup.sublist ?_ (nodup_pid_byPosition roster pv ps p hnd)
    exact (List.take_sublist _ _).map _
  · have hnodup_pos : posOrder.Nodup := by decide
    refine hnodup_pos.imp ?_
    intro p q hpq z hz1 hz2
    obtain ⟨x, hx, hxz⟩ := List.mem_map.mp hz1
    obtain ⟨y, hy, hyz⟩ := List.mem_map.mp hz2
    have hx2 : x ∈ byPosition roster pv ps p := (List.take_sublist _ _).subset hx
    have hy2 : y ∈ byPosition roster pv ps q := (List.take_sublist _ _).subset hy
    exact pid_injective_byPosition hx2 hy2 hpq (hxz.trans hyz.symm)

/-- Identifiers in the FLEX pool are pairwise distinct on a duplicate-free
roster. -/
theorem nodup_pid_flexEligible (roster : List Nat) (pv : Nat → Option ℚ)
    (ps : Nat → Option Pos) (used : List Nat) (hnd : roster.Nodup) :
    ((flexEligible roster pv ps used).map (fun x => x.pid)).Nodup := by
  have hbase : (((byPosition roster pv ps .RB ++ byPosition roster pv ps .WR ++
      byPosition roster pv ps .TE)).map (fun x => x.pid)).Nodup := by
    rw [List.map_append, List.map_append, List.nodup_append, List.nodup_append]
    refine ⟨⟨nodup_pid_byPosition roster pv ps .RB hnd,
      nodup_pid_byPosition roster pv ps .WR hnd,
      disjoint_pid_byPosition roster pv ps (by decide)⟩,
      nodup_pid_byPosition roster pv ps .TE hnd, ?_⟩
    rw [List.disjoint_append_left]
    exact ⟨disjoint_pid_byPosition roster pv ps (by decide),
      disjoint_pid_byPosition roster pv ps (by decide)⟩
  have hperm := (List.perm_insertionSort (fun a b : RPlayer => b.value ≤ a.value)
    ((byPosition roster pv ps .RB ++ byPosition roster pv ps .WR ++
      byPosition roster pv ps .TE).filter (fun x => !(used.contains x.pid)))).map
    (fun x => x.pid)
  rw [flexEligible, hperm.nodup_iff]
  exact List.Nodup.sublist ((List.filter_sublist _).map _) hbase

/-- Identifiers in the SUPER_FLEX pool are pairwise distinct on a
duplicate-free roster. -/
theorem nodup_pid_superFlexEligible (roster : List Nat) (pv : Nat → Option ℚ)
    (ps : Nat → Option Pos) (used : List Nat) (hnd : roster.Nodup) :
    ((superFlexEligible roster pv ps used).map (fun x => x.pid)).Nodup := by
  have hbase : (((byPosition roster pv ps .QB ++ byPosition roster pv ps .RB ++
      byPosition roster pv ps .WR ++ byPosition roster pv ps .TE)).map
        (fun x => x.pid)).Nodup := by
    rw [List.map_append, List.map_append, List.map_append,
      List.nodup_append, List.nodup_append, List.nodup_append]
    refine ⟨⟨⟨nodup_pid_byPosition roster pv ps .QB hnd,
      nodup_pid_byPosition roster pv ps .RB hnd,
      disjoint_pid_byPosition roster pv ps (by decide)⟩,
      nodup_pid_byPosition roster pv ps .WR hnd, ?_⟩,
      nodup_pid_byPosition roster pv ps .TE hnd, ?_⟩
    · rw [List.disjoint_append_left]
      exact ⟨disjoint_pid_byPosition roster pv ps (by decide),
        disjoint_pid_byPosition roster pv ps (by decide)⟩
    · rw [List.disjoint_append_left, List.disjoint_append_left]
      exact ⟨⟨disjoint_pid_byPosition roster pv ps (by decide),
        disjoint_pid_byPosition roster pv ps (by decide)⟩,
        disjoint_pid_byPosition roster pv ps (by decide)⟩
  have hperm := (List.perm_insertionSort (fun a b : RPlayer => b.value ≤ a.value)
    ((byPosition roster pv ps .QB ++ byPosition roster pv ps .RB ++
      byPosition roster pv ps .WR ++ byPosition roster pv ps .TE).filter
        (fun x => !(used.contains x.pid)))).map (fun x => x.pid)
  rw [superFlexEligible, hperm.nodup_iff]
  exact List.Nodup.sublist ((List.filter_sublist _).map _) hbase

/-- Members of the FLEX pool were not used in an earlier pass. -/
theorem not_used_of_mem_flexEligible {roster : List Nat} {pv : Nat → Option ℚ}
    {ps : Nat → Option Pos} {used : List Nat} {x : RPlayer}
    (hx : x ∈ flexEligible roster pv ps used) : ¬ x.pid ∈ used := by
  have hx2 := (List.perm_insertionSort _ _).mem_iff.mp hx
  have hpred := List.of_mem_filter hx2
  simpa using hpred

/-- Members of the SUPER_FLEX pool were not used in an earlier pass. -/
theorem not_used_of_mem_superFlexEligible {roster : List Nat} {pv : Nat → Option ℚ}
    {ps : Nat → Option Pos} {used : List Nat} {x : RPlayer}
    (hx : x ∈ superFlexEligible roster pv ps used) : ¬ x.pid ∈ used := by
  have hx2 := (List.perm_insertionSort _ _).mem_iff.mp hx
  have hpred := List.of_mem_filter hx2
  simpa using hpred

/-- On a duplicate-free roster the optimizer never assigns the same player
identifier to two slots. -/
theorem nodup_pid_lineupStarters (roster : List Nat) (pv : Nat → Option ℚ)
    (ps : Nat → Option Pos) (slots : Slots) (hnd : roster.Nodup) :
    ((lineupStarters roster pv ps slots).map (fun s => s.pid)).Nodup := by
  rw [lineupStarters, List.map_append, List.map_append, List.nodup_append, List.nodup_append]
  have hflexpid : ((flexStarters roster pv ps slots).map (fun s => s.pid)) =
      ((flexEligible roster pv ps (usedAfterRequired roster pv ps slots)).take
        slots.FLEX).map (fun x => x.pid) := by
    rw [flexStarters, map_pid_map_tag]
  have hsfpid : ((superFlexStarters roster pv ps slots).map (fun s => s.pid)) =
      ((superFlexEligible roster pv ps (usedAfterFlex roster pv ps slots)).take
        slots.SUPER_FLEX).map (fun x => x.pid) := by
    rw [superFlexStarters, map_pid_map_tag]
  refine ⟨⟨nodup_pid_requiredStarters roster pv ps slots hnd, ?_, ?_⟩, ?_, ?_⟩
  · rw [hflexpid]
    exact List.Nodup.sublist ((List.take_sublist _ _).map _)
      (nodup_pid_flexEligible roster pv ps _ hnd)
  · rw [hflexpid]
    intro z hz1 hz2
    obtain ⟨y, hy, hyz⟩ := List.mem_map.mp hz2
    have hy2 : y ∈ flexEligible roster pv ps (usedAfterRequired roster pv ps slots) :=
      (List.take_sublist _ _).subset hy
    exact not_used_of_mem_flexEligible hy2 (by rw [hyz]; exact hz1)
  · rw [hsfpid]
    exact List.Nodup.sublist ((List.take_sublist _ _).map _)
      (nodup_pid_superFlexEligible roster pv ps _ hnd)
  · rw [hsfpid]
    intro z hz1 hz2
    obtain ⟨y, hy, hyz⟩ := List.mem_map.mp hz2
    have hy2 : y ∈ superFlexEligible roster pv ps (usedAfterFlex roster pv ps slots) :=
      (List.take_sublist _ _).subset hy
    refine not_used_of_mem_superFlexEligible hy2 ?_
    rw [hyz]
    rw [usedAfterFlex, List.mem_append]
    rcases List.mem_append.mp hz1 with h | h
    · exact Or.inl h
    · exact Or.inr (by rw [hflexpid] at h ⊢; exact h)

/-- Counting a slot tag over a uniformly tagged segment: every entry matches
when the tags agree, none matches otherwise. -/
theorem countP_map_const_tag (l : List RPlayer) (t t2 : SlotTag) :
    (l.map (fun x => (⟨x.pid, x.value, t⟩ : Starter))).countP (fun s => s.slot == t2) =
      if t = t2 then l.length else 0 := by
  by_cases h : t = t2
  · subst h
    rw [if_pos rfl]
    have hall : ∀ a ∈ l.map (fun x => (⟨x.pid, x.value, t⟩ : Starter)),
        (fun s : Starter => s.slot == t) a = true := by
      intro a ha
      obtain ⟨x, _, rfl⟩ := List.mem_map.mp ha
      exact beq_self_eq_true t
    rw [List.countP_eq_length.mpr hall, List.length_map]
  · rw [if_neg h]
    refine List.countP_eq_zero.mpr ?_
    intro a ha
    obtain ⟨x, _, rfl⟩ := List.mem_map.mp ha
    simp [h]

/-- Pass 1 fills at most the configured number of dedicated slots of each
position. -/
theorem countP_pos_requiredStarters (roster : List Nat) (pv : Nat → Option ℚ)
    (ps : Nat → Option Pos) (slots : Slots) (p : Pos) :
    (requiredStarters roster pv ps slots).countP (fun s => s.slot == SlotTag.pos p) ≤
      slots.atPos p := by
  rw [requiredStarters]
  cases p <;>
    simp only [posOrder, List.flatMap_cons, List.flatMap_nil, List.append_nil,
      List.countP_append, countP_map_const_tag] <;>
    (try simp [List.length_take])

/-- Pass 1 assigns no player to a slot class other than a dedicated position
slot. -/
theorem countP_requiredStarters_eq_zero (roster : List Nat) (pv : Nat → Option ℚ)
    (ps : Nat → Option Pos) (slots : Slots) {t : SlotTag}
    (ht : ∀ q : Pos, SlotTag.pos q ≠ t) :
    (requiredStarters roster pv ps slots).countP (fun s => s.slot == t) = 0 := by
  rw [requiredStarters]
  simp only [posOrder, List.flatMap_cons, List.flatMap_nil, List.append_nil,
    List.countP_append, countP_map_const_tag]
  rw [if_neg (ht _), if_neg (ht _), if_neg (ht _), if_neg (ht _), if_neg (ht _),
    if_neg (ht _)]

/-- Claim C5: for every roster id list (without duplicate ids, per the data
model), every value table, every player directory and every slot
configuration, the optimizer assigns no player to two slots, and no slot class
(dedicated position, FLEX, SUPER_FLEX) receives more players than its
configured capacity. -/
theorem lineup_legality (roster : List Nat) (pv : Nat → Option ℚ)
    (ps : Nat → Option Pos) (slots : Slots) (hnd : roster.Nodup) :
    ((lineupStarters roster pv ps slots).map (fun s => s.pid)).Nodup ∧
    (∀ p, (lineupStarters roster pv ps slots).countP
        (fun s => s.slot == SlotTag.pos p) ≤ slots.atPos p) ∧
    (lineupStarters roster pv ps slots).countP
        (fun s => s.slot == SlotTag.FLEX) ≤ slots.FLEX ∧
    (lineupStarters roster pv ps slots).countP
        (fun s => s.slot == SlotTag.SUPER_FLEX) ≤ slots.SUPER_FLEX := by
  refine ⟨nodup_pid_lineupStarters roster pv ps slots hnd, ?_, ?_, ?_⟩
  · intro p
    rw [lineupStarters, List.countP_append, List.countP_append,
      flexStarters, superFlexStarters, countP_map_const_tag, countP_map_const_tag,
      if_neg (by simp), if_neg (by simp)]
    simpa using countP_pos_requiredStarters roster pv ps slots p
  · rw [lineupStarters, List.countP_append, List.countP_append,
      countP_requiredStarters_eq_zero roster pv ps slots (by intro q; simp),
      flexStarters, superFlexStarters, countP_map_const_tag, countP_map_const_tag,
      if_pos rfl, if_neg (by simp)]
    simp only [zero_add, add_zero, List.length_take]
    exact min_le_left _ _
  · rw [lineupStarters, List.countP_append, List.countP_append,
      countP_requiredStarters_eq_zero roster pv ps slots (by intro q; simp),
      flexStarters, superFlexStarters, countP_map_const_tag, countP_map_const_tag,
      if_neg (by simp), if_pos rfl]
    simp only [zero_add, add_zero, List.length_take]
    exact min_le_left _ _

unseal Rat.mul Rat.add Rat.sub Rat.inv in
/-- Witness for the claim C5 theorem at the concrete scenario roster. -/
theorem lineup_legality_witness :
    ([1, 2, 3, 4, 5, 6, 7] : List Nat).Nodup ∧
    (((lineupStarters [1, 2, 3, 4, 5, 6, 7] c4Values c4Players c4Slots).map
        (fun s => s.pid)).Nodup ∧
     (∀ p, (lineupStarters [1, 2, 3, 4, 5, 6, 7] c4Values c4Players c4Slots).countP
         (fun s => s.slot == SlotTag.pos p) ≤ c4Slots.atPos p) ∧
     (lineupStarters [1, 2, 3, 4, 5, 6, 7] c4Values c4Players c4Slots).countP
         (fun s => s.slot == SlotTag.FLEX) ≤ c4Slots.FLEX ∧
     (lineupStarters [1, 2, 3, 4, 5, 6, 7] c4Values c4Players c4Slots).countP
         (fun s => s.slot == SlotTag.SUPER_FLEX) ≤ c4Slots.SUPER_FLEX) :=
  ⟨by decide, lineup_legality [1, 2, 3, 4, 5, 6, 7] c4Values c4Players c4Slots (by decide)⟩

/-- Bench values at one position for calculateDepthScore (power-rankings.json.js
lines 793-831): roster players that are not starters and whose directory
position is the given one, with resolved values (missing values default 0). -/
def benchValuesAt (rosterPlayerIds : List Nat) (playerValues : Nat → Option ℚ)
    (starterIds : List Nat) (players : Nat → Option Pos) (p : Pos) : List ℚ :=
  rosterPlayerIds.filterMap (fun pid =>
    if starterIds.contains pid then none
    else
      match players pid with
      | none => none
      | some q => if q = p then some ((playerValues pid).getD 0) else none)

/-- calculateDepthScore: for QB, RB, WR and TE, take the single highest-value
bench player per position (sort descending, first element), sum these top
backups, and normalize by 2000 per contributing position, capped at 100.  When
no position has a bench player the source computes depthValue / targetDepth =
0 / 0 = NaN, and Math.min(100, NaN) = NaN; that non-number outcome is modelled
as none. -/
def calculateDepthScore (rosterPlayerIds : List Nat) (playerValues : Nat → Option ℚ)
    (starterIds : List Nat) (players : Nat → Option Pos) : Option ℚ :=
  let contribs := ([Pos.QB, Pos.RB, Pos.WR, Pos.TE]).filterMap (fun p =>
    (List.insertionSort (fun a b : ℚ => b ≤ a)
      (benchValuesAt rosterPlayerIds playerValues starterIds players p)).head?)
  if contribs.length = 0 then none
  else some (min 100 (contribs.sum / ((contribs.length : ℚ) * 2000) * 100))

/-- Player directory for the degenerate depth-score input: a roster whose two
players are both starters, so every position has an empty bench. -/
def c3Players : Nat → Option Pos := fun pid =>
  [(1, Pos.QB), (2, Pos.RB)].lookup pid

/-- Values for the degenerate depth-score input. -/
def c3Values : Nat → Option ℚ := fun pid =>
  [(1, (3000 : ℚ)), (2, 2500)].lookup pid

unseal Rat.mul Rat.add Rat.sub Rat.inv in
/-- Claim C3, failing input: on a roster with zero bench players at every one
of QB, RB, WR and TE (every rostered player starts), the depth score is the
JavaScript NaN (modelled none), not a number in [0, 100]; the NaN then
propagates into the final weighted power score.  The claim and the spec bound
are therefore right and the unguarded 0 / 0 in the code is the defect. -/
theorem depth_score_nan_on_all_starter_roster :
    calculateDepthScore [1, 2] c3Values [1, 2] c3Players = none := by
  decide

/-- A player record as consumed by the trade engine: identifier, position,
resolved value, and the isStarter flag taken from the computed lineup. -/
structure TPlayer where
  pid : Nat
  pos : Pos
  value : ℚ
  isStarter : Bool
deriving DecidableEq, Repr

/-- The slice of one per-position record of analyzeTeamNeeds that flows into
the trade impact estimator and the trade scorer: the starters list (top
players by value, descending) and the isNeed and isSurplus flags.  The other
fields of the analysis record never reach the functions modelled here. -/
structure PosAnalysis where
  starters : List TPlayer
  isNeed : Bool
  isSurplus : Bool
deriving DecidableEq, Repr

/-- A team needs record: per-position analyses, present only for the positions
QB, RB, WR and TE that analyzeTeamNeeds covers (K and DEF lookups yield
undefined in the source, modelled none). -/
abbrev TeamNeeds := Pos → Option PosAnalysis

/-- One starter-upgrade event recorded by the impact estimator. -/
structure Upgrade where
  newPlayer : Nat
  replaces : Nat
  improvement : ℚ
deriving DecidableEq, Repr

/-- The upgrade check of calculateImpact for one received player: when the
needs record has a non-empty starters list at the position of the player and
the player value exceeds the last (lowest-value) starter, the player would
start, improving the lineup by the difference. -/
def upgradeOf (teamNeeds : TeamNeeds) (p : TPlayer) : Option Upgrade :=
  match teamNeeds p.pos with
  | none => none
  | some a =>
    match a.starters.getLast? with
    | none => none
    | some worst =>
      if worst.value < p.value then some ⟨p.pid, worst.pid, p.value - worst.value⟩
      else none

/-- Sum of starter-upgrade improvements over the received players. -/
def lineupImprovementOf (teamNeeds : TeamNeeds) (playersReceived : List TPlayer) : ℚ :=
  ((playersReceived.filterMap (upgradeOf teamNeeds)).map (fun u => u.improvement)).sum

/-- Displacement penalty of calculateImpact: half the value of every
traded-away starter. -/
def starterLossOf (playersGiven : List TPlayer) : ℚ :=
  ((playersGiven.filter (fun p => p.isStarter)).map (fun p => p.value * (1/2))).sum

/-- Net lineup impact: improvement minus displacement penalty. -/
def netLineupImpact (teamNeeds : TeamNeeds) (playersGiven playersReceived : List TPlayer) : ℚ :=
  lineupImprovementOf teamNeeds playersReceived - starterLossOf playersGiven

/-- The TradeImpact record returned by calculateImpact. -/
structure Impact where
  valueGiven : ℚ
  valueReceived : ℚ
  netValue : ℚ
  lineupImprovement : ℚ
  starterUpgrades : List Upgrade
  estimatedPowerChange : ℚ
  wouldImproveLineup : Bool
deriving DecidableEq, Repr

/-- calculateImpact (generate-trade-recommendations.js data loader, lines
1263-1303; the CLI calculateTradeImpact at lines 189-241 computes the same
fields the same way): the estimated power change divides the net lineup
impact by the league maximum lineup value, multiplies by 100 and by the
hardcoded lineup weight 0.50, and reports the result rounded to one decimal;
the wouldImproveLineup flag tests only that the upgrade improvement sum is
strictly positive. -/
def calculateImpact (teamNeeds : TeamNeeds) (playersGiven playersReceived : List TPlayer)
    (maxLineupValue : ℚ) : Impact :=
  { valueGiven := (playersGiven.map (fun p => p.value)).sum
    valueReceived := (playersReceived.map (fun p => p.value)).sum
    netValue := (playersReceived.map (fun p => p.value)).sum -
      (playersGiven.map (fun p => p.value)).sum
    lineupImprovement := lineupImprovementOf teamNeeds playersReceived
    starterUpgrades := playersReceived.filterMap (upgradeOf teamNeeds)
    estimatedPowerChange := roundTo1
      (netLineupImpact teamNeeds playersGiven playersReceived / maxLineupValue * 100 * (1/2))
    wouldImproveLineup := decide (0 < lineupImprovementOf teamNeeds playersReceived) }

/-- The power-score delta formula of the spec, with the lineup weight as a
parameter: (netLineupImpact / maxLineupValue) x 100 x lineupWeight. -/
def specPowerDelta (netImpact maxLineupValue lineupWeight : ℚ) : ℚ :=
  netImpact / maxLineupValue * 100 * lineupWeight

/-- Claim C1, amended: for every trade the reported estimated power-score
delta equals the spec formula with the lineup weight fixed at 0.50, rounded to
one decimal; the estimator takes no league-type input, so the redraft lineup
weight 0.35 is never used. -/
theorem estimatedPowerChange_fixed_half_weight (teamNeeds : TeamNeeds)
    (playersGiven playersReceived : List TPlayer) (m : ℚ) :
    (calculateImpact teamNeeds playersGiven playersReceived m).estimatedPowerChange =
      roundTo1 (specPowerDelta (netLineupImpact teamNeeds playersGiven playersReceived)
        m (1/2)) :=
  rfl

/-- Needs record for the claim C1 counterexample: one RB starter of value
2000. -/
def c1Needs : TeamNeeds := fun p =>
  match p with
  | Pos.RB => some { starters := [⟨10, Pos.RB, 2000, true⟩], isNeed := false, isSurplus := false }
  | _ => none

/-- Given side of the claim C1 counterexample: one non-starter WR. -/
def c1Given : List TPlayer := [⟨12, Pos.WR, 500, false⟩]

/-- Received side of the claim C1 counterexample: an RB upgrading the worst
starter by 1000. -/
def c1Received : List TPlayer := [⟨11, Pos.RB, 3000, false⟩]

unseal Rat.mul Rat.add Rat.sub Rat.inv in
/-- Claim C1, counterexample: a concrete trade with net lineup impact 1000 and
league maximum lineup value 10000.  The estimator reports a delta of 5, which
is the formula with weight 0.50; in a redraft league the claim predicts the
weight 0.35 and the value 3.5, so the claim fails for redraft leagues. -/
theorem estimatedPowerChange_redraft_counterexample :
    netLineupImpact c1Needs c1Given c1Received = 1000 ∧
    (calculateImpact c1Needs c1Given c1Received 10000).estimatedPowerChange = 5 ∧
    specPowerDelta 1000 10000 (35/100) = 7/2 ∧
    (5 : ℚ) ≠ 7/2 := by
  refine ⟨by decide, by decide, by decide, by decide⟩

/-- In a list sorted by value descending, the last element has the minimum
value. -/
theorem getLast_value_min :
    ∀ (l : List TPlayer), l.Pairwise (fun x y => y.value ≤ x.value) →
      ∀ z, l.getLast? = some z → ∀ x ∈ l, z.value ≤ x.value := by
  intro l
  induction l with
  | nil => intro _ z hz; simp at hz
  | cons a l ih =>
    intro hs z hz x hx
    rcases l with _ | ⟨b, l2⟩
    · simp at hz hx
      rw [← hz, hx]
    · rw [List.getLast?_cons_cons] at hz
      have hpair := List.pairwise_cons.mp hs
      have hzmem : z ∈ b :: l2 := by
        rw [List.getLast?_eq_getLast (b :: l2) (by simp)] at hz
        rw [← Option.some.inj hz]
        exact List.getLast_mem _
      rcases List.mem_cons.mp hx with rfl | hx2
      · exact hpair.1 z hzmem
      · exact ih hpair.2 z hz x hx2

/-- Every recorded starter upgrade has a strictly positive improvement. -/
theorem improvement_pos_of_mem_upgrades {teamNeeds : TeamNeeds}
    {playersReceived : List TPlayer} {u : Upgrade}
    (hu : u ∈ playersReceived.filterMap (upgradeOf teamNeeds)) : 0 < u.improvement := by
  rw [List.mem_filterMap] at hu
  obtain ⟨p, _, hup⟩ := hu
  rw [upgradeOf] at hup
  rcases h1 : teamNeeds p.pos with _ | a
  · rw [h1] at hup
    exact absurd hup (by simp)
  · rw [h1] at hup
    dsimp only at hup
    rcases h2 : a.starters.getLast? with _ | worst
    · rw [h2] at hup
      exact absurd hup (by simp)
    · rw [h2] at hup
      dsimp only at hup
      split_ifs at hup with hlt
      injection hup with h
      subst h
      simpa using hlt

/-- Half-up rounding to one decimal preserves nonnegativity. -/
theorem roundTo1_nonneg {q : ℚ} (hq : 0 ≤ q) : 0 ≤ roundTo1 q := by
  rw [roundTo1, jsRound]
  have hfl : (0 : ℤ) ≤ ⌊q * 10 + 1/2⌋ := by
    rw [Int.le_floor]
    push_cast
    nlinarith
  exact div_nonneg (by exact_mod_cast hfl) (by norm_num)

/-- Claim C7: if a team receives at least one player, every received player is
strictly more valuable than the lowest-value current starter at its position
(which exists), the needs record lists starters in descending value order as
analyzeTeamNeeds produces them, no given player is a starter, and the league
maximum lineup value is positive, then the computed impact has
wouldImproveLineup true and a nonnegative estimated power-score change. -/
theorem trade_impact_sign (teamNeeds : TeamNeeds)
    (playersGiven playersReceived : List TPlayer) (m : ℚ)
    (hm : 0 < m) (hrecv : playersReceived ≠ [])
    (hgive : ∀ g ∈ playersGiven, g.isStarter = false)
    (hsorted : ∀ p a, teamNeeds p = some a →
      a.starters.Pairwise (fun x y => y.value ≤ x.value))
    (hup : ∀ p ∈ playersReceived, ∃ a, teamNeeds p.pos = some a ∧
      ∃ w ∈ a.starters, (∀ s ∈ a.starters, w.value ≤ s.value) ∧ w.value < p.value) :
    (calculateImpact teamNeeds playersGiven playersReceived m).wouldImproveLineup = true ∧
    0 ≤ (calculateImpact teamNeeds playersGiven playersReceived m).estimatedPowerChange := by
  have hupg : ∀ p ∈ playersReceived, ∃ u, upgradeOf teamNeeds p = some u := by
    intro p hp
    obtain ⟨a, ha, w, hw, hwmin, hwlt⟩ := hup p hp
    have hne : a.starters ≠ [] := List.ne_nil_of_mem hw
    have hz : a.starters.getLast? = some (a.starters.getLast hne) :=
      List.getLast?_eq_getLast _ hne
    have hzmin := getLast_value_min a.starters (hsorted p.pos a ha) _ hz
    have hzlt : (a.starters.getLast hne).value < p.value :=
      lt_of_le_of_lt (hzmin w hw) hwlt
    refine ⟨⟨p.pid, (a.starters.getLast hne).pid, p.value - (a.starters.getLast hne).value⟩, ?_⟩
    rw [upgradeOf, ha]
    dsimp only
    rw [hz]
    dsimp only
    rw [if_pos hzlt]
  have hfm : playersReceived.filterMap (upgradeOf teamNeeds) ≠ [] := by
    obtain ⟨r, rest, rfl⟩ := List.exists_cons_of_ne_nil hrecv
    obtain ⟨u, hu⟩ := hupg r (List.mem_cons_self r rest)
    exact List.ne_nil_of_mem (List.mem_filterMap.mpr ⟨r, List.mem_cons_self r rest, hu⟩)
  have hpos : 0 < lineupImprovementOf teamNeeds playersReceived := by
    rw [lineupImprovementOf]
    refine List.sum_pos _ ?_ ?_
    · intro x hx
      obtain ⟨u, hu, rfl⟩ := List.mem_map.mp hx
      exact improvement_pos_of_mem_upgrades hu
    · simpa using hfm
  have hloss : starterLossOf playersGiven = 0 := by
    rw [starterLossOf, List.filter_eq_nil_iff.mpr]
    · rfl
    · intro g hg
      rw [hgive g hg]
      simp
  refine ⟨decide_eq_true hpos, ?_⟩
  have hnet : 0 ≤ netLineupImpact teamNeeds playersGiven playersReceived := by
    rw [netLineupImpact, hloss, sub_zero]
    exact le_of_lt hpos
  refine roundTo1_nonneg ?_
  have h1 : 0 ≤ netLineupImpact teamNeeds playersGiven playersReceived / m :=
    div_nonneg hnet (le_of_lt hm)
  nlinarith

/-- Needs record for the claim C7 witness: one RB starter of value 2000. -/
def c7Needs : TeamNeeds := fun p =>
  match p with
  | Pos.RB => some { starters := [⟨10, Pos.RB, 2000, true⟩], isNeed := false, isSurplus := false }
  | _ => none

/-- Given side for the claim C7 witness: a non-starter WR. -/
def c7Given : List TPlayer := [⟨12, Pos.WR, 500, false⟩]

/-- Received side for the claim C7 witness: an RB above the worst RB starter. -/
def c7Received : List TPlayer := [⟨11, Pos.RB, 3000, false⟩]

/-- Witness for the claim C7 theorem at a concrete trade that satisfies all of
its hypotheses. -/
theorem trade_impact_sign_witness :
    (calculateImpact c7Needs c7Given c7Received 10000).wouldImproveLineup = true ∧
    0 ≤ (calculateImpact c7Needs c7Given c7Received 10000).estimatedPowerChange := by
  refine trade_impact_sign c7Needs c7Given c7Received 10000 (by norm_num) (by decide)
    (by decide) ?_ ?_
  · intro p a ha
    cases p <;> simp only [c7Needs] at ha
    all_goals first
      | (injection ha with h; rw [← h]; simp)
      | exact absurd ha (by simp)
  · intro p hp
    have hp2 : p = ⟨11, Pos.RB, 3000, false⟩ := by
      simpa [c7Received] using hp
    subst hp2
    refine ⟨{ starters := [⟨10, Pos.RB, 2000, true⟩], isNeed := false, isSurplus := false },
      rfl, ⟨10, Pos.RB, 2000, true⟩, by simp, ?_, by norm_num⟩
    intro s hs
    have hs2 : s = ⟨10, Pos.RB, 2000, true⟩ := by simpa using hs
    rw [hs2]

/-- Needs record for the claim C10 concrete trade: one RB starter of value
2000. -/
def c10Needs : TeamNeeds := fun p =>
  match p with
  | Pos.RB => some { starters := [⟨20, Pos.RB, 2000, true⟩], isNeed := false, isSurplus := false }
  | _ => none

/-- Given side for claim C10: a starter WR of value 3000, incurring the 0.5
displacement penalty. -/
def c10Given : List TPlayer := [⟨22, Pos.WR, 3000, true⟩]

/-- Received side for claim C10: an RB barely above the worst RB starter. -/
def c10Received : List TPlayer := [⟨21, Pos.RB, 2100, false⟩]

unseal Rat.mul Rat.add Rat.sub Rat.inv in
/-- Claim C10: the wouldImproveLineup flag is true exactly when the sum of
starter-upgrade improvements from the received players is strictly positive,
ignoring the displacement penalty for traded-away starters; consequently, at a
concrete trade (upgrade of 100, penalty of 1500, maximum lineup value 10000)
the flag is true while the estimated power-score change is negative. -/
theorem wouldImproveLineup_iff_upgrade_sum_pos :
    (∀ (teamNeeds : TeamNeeds) (playersGiven playersReceived : List TPlayer) (m : ℚ),
      ((calculateImpact teamNeeds playersGiven playersReceived m).wouldImproveLineup = true ↔
        0 < lineupImprovementOf teamNeeds playersReceived)) ∧
    ((calculateImpact c10Needs c10Given c10Received 10000).wouldImproveLineup = true ∧
     (calculateImpact c10Needs c10Given c10Received 10000).estimatedPowerChange < 0) := by
  refine ⟨?_, by decide, by decide⟩
  intro teamNeeds playersGiven playersReceived m
  exact ⟨of_decide_eq_true, decide_eq_true⟩

/-- A candidate trade as assembled by generateTrades: the two given sides and
the precomputed per-side impacts. -/
structure TradeCand where
  team1Gives : List TPlayer
  team2Gives : List TPlayer
  team1Impact : Impact
  team2Impact : Impact
deriving DecidableEq, Repr

/-- A scored trade as produced by scoreTrade. -/
structure ScoredTrade where
  team1Gives : List TPlayer
  team2Gives : List TPlayer
  team1Impact : Impact
  team2Impact : Impact
  bothImprove : Bool
  bothHaveUpgrades : Bool
  fairExchange : Bool
  score : ℚ
deriving DecidableEq, Repr

/-- Positional-fit bonus of 10 per given asset that leaves a surplus position
of its own team. -/
def surplusBonus (needs : TeamNeeds) (ps : List TPlayer) : ℚ :=
  (ps.map (fun p =>
    match needs p.pos with
    | some a => if a.isSurplus then (10 : ℚ) else 0
    | none => 0)).sum

/-- Positional-fit bonus of 15 per asset received into a need position of the
receiving team. -/
def needBonus (needs : TeamNeeds) (ps : List TPlayer) : ℚ :=
  (ps.map (fun p =>
    match needs p.pos with
    | some a => if a.isNeed then (15 : ℚ) else 0
    | none => 0)).sum

/-- scoreTrade (generate-trade-recommendations.js data loader lines 1308-1345;
the CLI scoreTradeRecommendation at lines 443-515 computes the same score):
ten times the combined estimated power change, plus the positional-fit
bonuses, 25 per side whose lineup improves, 20 per starter upgrade, 40 when
both lineups improve, 50 when both sides have a starter upgrade, and 20 for a
balanced value exchange, rounded to one decimal. -/
def scoreTrade (trade : TradeCand) (team1Needs team2Needs : TeamNeeds) : ScoredTrade :=
  { team1Gives := trade.team1Gives
    team2Gives := trade.team2Gives
    team1Impact := trade.team1Impact
    team2Impact := trade.team2Impact
    bothImprove := trade.team1Impact.wouldImproveLineup && trade.team2Impact.wouldImproveLineup
    bothHaveUpgrades := decide (0 < trade.team1Impact.starterUpgrades.length) &&
      decide (0 < trade.team2Impact.starterUpgrades.length)
    fairExchange := decide (|trade.team1Impact.netValue + trade.team2Impact.netValue| < 800)
    score := roundTo1 (
      (trade.team1Impact.estimatedPowerChange + trade.team2Impact.estimatedPowerChange) * 10 +
      (surplusBonus team1Needs trade.team1Gives + needBonus team2Needs trade.team1Gives +
       surplusBonus team2Needs trade.team2Gives + needBonus team1Needs trade.team2Gives) +
      ((if trade.team1Impact.wouldImproveLineup then (25 : ℚ) else 0) +
       (if trade.team2Impact.wouldImproveLineup then (25 : ℚ) else 0)) +
      (((trade.team1Impact.starterUpgrades.length : ℚ) +
        (trade.team2Impact.starterUpgrades.length : ℚ)) * 20) +
      (if trade.team1Impact.wouldImproveLineup && trade.team2Impact.wouldImproveLineup
        then (40 : ℚ) else 0) +
      (if decide (0 < trade.team1Impact.starterUpgrades.length) &&
          decide (0 < trade.team2Impact.starterUpgrades.length) then (50 : ℚ) else 0) +
      (if decide (|trade.team1Impact.netValue + trade.team2Impact.netValue| < 800)
        then (20 : ℚ) else 0)) }

/-- The order realized by the CLI per-pair sort comparator (lines 535-541):
candidates where both lineups improve come first regardless of score, then
score descending. -/
def pairOrd (a b : ScoredTrade) : Prop :=
  (a.bothImprove = true ∧ b.bothImprove = false) ∨
    (a.bothImprove = b.bothImprove ∧ b.score ≤ a.score)

instance : DecidableRel pairOrd := fun a b =>
  inferInstanceAs (Decidable ((a.bothImprove = true ∧ b.bothImprove = false) ∨
    (a.bothImprove = b.bothImprove ∧ b.score ≤ a.score)))

instance : IsTotal ScoredTrade pairOrd := by
  constructor
  intro a b
  by_cases hab : a.bothImprove = b.bothImprove
  · rcases le_total b.score a.score with h | h
    · exact Or.inl (Or.inr ⟨hab, h⟩)
    · exact Or.inr (Or.inr ⟨hab.symm, h⟩)
  · cases ha : a.bothImprove
    · cases hb : b.bothImprove
      · exact absurd (ha.trans hb.symm) hab
      · exact Or.inr (Or.inl ⟨hb, ha⟩)
    · cases hb : b.bothImprove
      · exact Or.inl (Or.inl ⟨ha, hb⟩)
      · exact absurd (ha.trans hb.symm) hab

instance : IsTrans ScoredTrade pairOrd := by
  constructor
  intro a b c hab hbc
  rcases hab with ⟨ha, hb⟩ | ⟨hab2, hsab⟩
  · rcases hbc with ⟨hb2, _⟩ | ⟨hbc2, _⟩
    · exact absurd (hb.symm.trans hb2) (by simp)
    · exact Or.inl ⟨ha, hbc2 ▸ hb⟩
  · rcases hbc with ⟨hb2, hc⟩ | ⟨hbc2, hsbc⟩
    · exact Or.inl ⟨hab2.trans hb2, hc⟩
    · exact Or.inr ⟨hab2.trans hbc2, le_trans hsbc hsab⟩

/-- The order realized by the league-wide sort comparator of
generateRecommendations (line 1411): score descending only. -/
def scoreOrd (a b : ScoredTrade) : Prop := b.score ≤ a.score

instance : DecidableRel scoreOrd := fun a b =>
  inferInstanceAs (Decidable (b.score ≤ a.score))

instance : IsTotal ScoredTrade scoreOrd :=
  ⟨fun a b => le_total b.score a.score⟩

instance : IsTrans ScoredTrade scoreOrd :=
  ⟨fun _ _ _ h1 h2 => le_trans h2 h1⟩

/-- The per-pair ranking of findMutuallyBeneficialTrades (CLI lines 533-554):
keep positive scores, sort with the bothImprove-first comparator, return the
top ten. -/
def rankPairTrades (ts : List ScoredTrade) : List ScoredTrade :=
  (List.insertionSort pairOrd (ts.filter (fun t => decide (0 < t.score)))).take 10

/-- Deduplication key of a trade: the multiset of player identifiers on each
side, canonicalized by sorting. -/
def tradeKey (t : ScoredTrade) : List Nat × List Nat :=
  (List.insertionSort (fun a b : Nat => a ≤ b) (t.team1Gives.map (fun p => p.pid)),
   List.insertionSort (fun a b : Nat => a ≤ b) (t.team2Gives.map (fun p => p.pid)))

/-- First-occurrence deduplication by trade key, as the seen-set filter of
generateRecommendations (lines 1414-1424). -/
def dedupTrades : List ScoredTrade → List (List Nat × List Nat) → List ScoredTrade
  | [], _ => []
  | t :: ts, seen =>
    if tradeKey t ∈ seen then dedupTrades ts seen
    else t :: dedupTrades ts (tradeKey t :: seen)

/-- The league-wide ranking of generateRecommendations (lines 1397-1427): keep
positive scores, sort by score descending, deduplicate, return the top 100. -/
def rankLeagueTrades (ts : List ScoredTrade) : List ScoredTrade :=
  (dedupTrades (List.insertionSort scoreOrd (ts.filter (fun t => decide (0 < t.score)))) []).take 100

/-- Deduplication only removes elements, keeping the relative order. -/
theorem dedupTrades_sublist (ts : List ScoredTrade) (seen : List (List Nat × List Nat)) :
    (dedupTrades ts seen).Sublist ts := by
  induction ts generalizing seen with
  | nil => simp [dedupTrades]
  | cons t ts ih =>
    rw [dedupTrades]
    split_ifs
    · exact (ih seen).cons t
    · exact (ih _).cons₂ t

/-- Claim C6, amended: the per-pair recommendation list of the CLI tool is
ordered with candidates improving both lineups first and by score descending
within each group, and a side improves its lineup exactly when it has at least
one starter upgrade, so there the claimed ordering holds; the league-wide list
of the generateRecommendations data loader, however, is ordered by score
descending only, with no priority for candidates where both teams get starter
upgrades. -/
theorem trade_ranking_order :
    (∀ ts, (rankPairTrades ts).Pairwise pairOrd) ∧
    (∀ (teamNeeds : TeamNeeds) (playersGiven playersReceived : List TPlayer) (m : ℚ),
      ((calculateImpact teamNeeds playersGiven playersReceived m).wouldImproveLineup = true ↔
        (calculateImpact teamNeeds playersGiven playersReceived m).starterUpgrades ≠ [])) ∧
    (∀ ts, (rankLeagueTrades ts).Pairwise scoreOrd) := by
  refine ⟨?_, ?_, ?_⟩
  · intro ts
    exact List.Pairwise.sublist (List.take_sublist _ _)
      (List.sorted_insertionSort pairOrd _)
  · intro teamNeeds playersGiven playersReceived m
    constructor
    · intro h hnil
      have hpos : 0 < lineupImprovementOf teamNeeds playersReceived := of_decide_eq_true h
      have hzero : lineupImprovementOf teamNeeds playersReceived = 0 := by
        rw [lineupImprovementOf]
        have hnil2 : playersReceived.filterMap (upgradeOf teamNeeds) = [] := hnil
        rw [hnil2]
        rfl
      rw [hzero] at hpos
      exact absurd hpos (by norm_num)
    · intro hne
      have hne2 : playersReceived.filterMap (upgradeOf teamNeeds) ≠ [] := hne
      apply decide_eq_true
      rw [lineupImprovementOf]
      refine List.sum_pos _ ?_ ?_
      · intro x hx
        obtain ⟨u, hu, rfl⟩ := List.mem_map.mp hx
        exact improvement_pos_of_mem_upgrades hu
      · intro hmapnil
        apply hne2
        cases hl : playersReceived.filterMap (upgradeOf teamNeeds) with
        | nil => rfl
        | cons a l =>
          rw [hl] at hmapnil
          exact absurd hmapnil (by simp)
  · intro ts
    exact List.Pairwise.sublist
      ((List.take_sublist _ _).trans (dedupTrades_sublist _ _))
      (List.sorted_insertionSort scoreOrd _)

/-- Team 1 needs record for the counterexample trade A: one WR starter of
value 2300. -/
def c6NeedsA1 : TeamNeeds := fun p =>
  match p with
  | Pos.WR => some { starters := [⟨31, Pos.WR, 2300, true⟩], isNeed := false, isSurplus := false }
  | _ => none

/-- Team 2 needs record for the counterexample trade A: one RB starter of
value 2800. -/
def c6NeedsA2 : TeamNeeds := fun p =>
  match p with
  | Pos.RB => some { starters := [⟨32, Pos.RB, 2800, true⟩], isNeed := false, isSurplus := false }
  | _ => none

/-- Counterexample trade A: a starter-for-starter swap that upgrades both
lineups slightly while both sides pay the displacement penalty, scoring 78. -/
def c6TradeA : TradeCand :=
  { team1Gives := [⟨21, Pos.RB, 2900, true⟩]
    team2Gives := [⟨22, Pos.WR, 2400, true⟩]
    team1Impact := calculateImpact c6NeedsA1 [⟨21, Pos.RB, 2900, true⟩]
      [⟨22, Pos.WR, 2400, true⟩] 10000
    team2Impact := calculateImpact c6NeedsA2 [⟨22, Pos.WR, 2400, true⟩]
      [⟨21, Pos.RB, 2900, true⟩] 10000 }

/-- Team 1 needs record for the counterexample trade B: a strong WR starter
plus QB and TE surpluses, with WR marked a need. -/
def c6NeedsB1 : TeamNeeds := fun p =>
  match p with
  | Pos.WR => some { starters := [⟨33, Pos.WR, 3000, true⟩], isNeed := true, isSurplus := false }
  | Pos.QB => some { starters := [], isNeed := false, isSurplus := true }
  | Pos.TE => some { starters := [], isNeed := false, isSurplus := true }
  | _ => none

/-- Team 2 needs record for the counterexample trade B: QB and TE needs and a
WR surplus. -/
def c6NeedsB2 : TeamNeeds := fun p =>
  match p with
  | Pos.QB => some { starters := [⟨34, Pos.QB, 2000, true⟩], isNeed := true, isSurplus := false }
  | Pos.TE => some { starters := [⟨35, Pos.TE, 2000, true⟩], isNeed := true, isSurplus := false }
  | Pos.WR => some { starters := [], isNeed := false, isSurplus := true }
  | _ => none

/-- Counterexample trade B: a balanced 2-for-1 consolidation among bench
players with perfect positional fit but no starter upgrades, scoring 95. -/
def c6TradeB : TradeCand :=
  { team1Gives := [⟨23, Pos.QB, 1200, false⟩, ⟨24, Pos.TE, 1400, false⟩]
    team2Gives := [⟨25, Pos.WR, 2600, false⟩]
    team1Impact := calculateImpact c6NeedsB1 [⟨23, Pos.QB, 1200, false⟩, ⟨24, Pos.TE, 1400, false⟩]
      [⟨25, Pos.WR, 2600, false⟩] 10000
    team2Impact := calculateImpact c6NeedsB2 [⟨25, Pos.WR, 2600, false⟩]
      [⟨23, Pos.QB, 1200, false⟩, ⟨24, Pos.TE, 1400, false⟩] 10000 }

/-- Counterexample trade A after scoring. -/
def c6ScoredA : ScoredTrade := scoreTrade c6TradeA c6NeedsA1 c6NeedsA2

/-- Counterexample trade B after scoring. -/
def c6ScoredB : ScoredTrade := scoreTrade c6TradeB c6NeedsB1 c6NeedsB2

unseal Rat.mul Rat.add Rat.sub Rat.inv in
/-- Claim C6, counterexample: in the league-wide recommendation output, trade
A (both teams get starter upgrades, score 78) is ranked after trade B (no
starter upgrades, score 95), so candidates where both teams get starter
upgrades are not ordered before every other candidate regardless of score. -/
theorem trade_ranking_counterexample :
    c6ScoredA.bothHaveUpgrades = true ∧
    c6ScoredB.bothHaveUpgrades = false ∧
    c6ScoredA.score = 78 ∧
    c6ScoredB.score = 95 ∧
    rankLeagueTrades [c6ScoredA, c6ScoredB] = [c6ScoredB, c6ScoredA] := by
  refine ⟨by decide, by decide, by decide, by decide, by decide⟩

end Sleeper
